import Mathlib

/-
Shallow embedding of src/streamlit_app.py, a Streamlit dashboard for the CNN
Fear & Greed index.  Python floats are modelled as rationals, JSON objects
with optional fields as structures of Option fields, JSON dictionaries as
association lists, and the rendered page as a list of widget values.
-/

namespace StreamlitApp

/-- RATING_COLORS (source lines 18-24): the five canonical band names, in
order, mapped to their display colours.  Python dict modelled as an
association list; membership tests in the source test the keys. -/
def RATING_COLORS : List (String × String) :=
  [("Extreme Fear", "#d32f2f"),
   ("Fear", "#f57c00"),
   ("Neutral", "#fdd835"),
   ("Greed", "#7cb342"),
   ("Extreme Greed", "#2e7d32")]

/-- The keys of RATING_COLORS, used for the membership tests at source lines
179 and 246 (Python `in` on a dict tests keys). -/
def bandKeys : List String := RATING_COLORS.map Prod.fst

/-- _rating_label (source lines 35-44): the score-to-band classifier, an
if-chain over the score. -/
def _rating_label (score : ℚ) : String :=
  if score ≤ 25 then "Extreme Fear"
  else if score ≤ 45 then "Fear"
  else if score ≤ 55 then "Neutral"
  else if score ≤ 75 then "Greed"
  else "Extreme Greed"

/-- Python str.replace of every underscore by a space, as in
`rating.replace("_", " ")` at source lines 178 and 245. -/
def pyReplaceUnderscore (s : String) : String :=
  ⟨s.data.map fun c => if c = '_' then ' ' else c⟩

/-- Helper for Python str.title over ASCII: an alphabetic character is
uppercased when the previous character is not alphabetic and lowercased
otherwise; non-alphabetic characters pass through and reset the word. -/
def pyTitleAux : Bool → List Char → List Char
  | _, [] => []
  | prevAlpha, c :: cs =>
    if c.isAlpha then
      (if prevAlpha then c.toLower else c.toUpper) :: pyTitleAux true cs
    else
      c :: pyTitleAux false cs

/-- Python str.title restricted to ASCII strings (the only ones the app
handles), as in `.title()` at source lines 178 and 245. -/
def pyTitle (s : String) : String := ⟨pyTitleAux false s.data⟩

/-- The label normalisation applied at source lines 178 and 245:
replace underscores by spaces, then title-case. -/
def normalizeLabel (label : String) : String := pyTitle (pyReplaceUnderscore label)

/-- rating_display (source lines 178-180): normalise the external label and
keep it when it is a RATING_COLORS key, otherwise recompute the band from
the score with _rating_label.  Lines 245-247 repeat the same three lines
for each indicator. -/
def rating_display (current_rating : String) (current_score : ℚ) : String :=
  let r := normalizeLabel current_rating
  if r ∈ bandKeys then r else _rating_label current_score

/-- The `fear_and_greed` JSON object (consumed at source lines 171-175):
every field may be absent.  The timestamp is epoch milliseconds. -/
structure FearGreedRaw where
  score : Option ℚ
  rating : Option String
  previous_close : Option ℚ
  timestamp : Option ℕ
deriving DecidableEq

/-- The empty dict default of `data.get("fear_and_greed", {})` (line 171). -/
def FearGreedRaw.empty : FearGreedRaw := ⟨none, none, none, none⟩

/-- One raw historical point `{x: epoch-ms, y: score}` (source line 93-99).
`pd.to_datetime(x, unit="ms")` reinterprets x as a datetime; the conversion
is strictly monotone and injective in x, so ordering by date is ordering by
x and the point is modelled by x itself together with the score y. -/
structure HistPoint where
  x : ℕ
  y : ℚ
deriving DecidableEq

/-- One sub-indicator JSON object `{score, rating}` (source lines 240-241);
both fields may be absent. -/
structure IndicatorRaw where
  score : Option ℚ
  rating : Option String
deriving DecidableEq

/-- The parsed JSON payload returned by the endpoint: the `fear_and_greed`
object, the `fear_and_greed_historical.data` array, and the remaining
top-level sub-indicator entries as an association list keyed by the JSON
key (Python dict .get modelled as first-match lookup). -/
structure Payload where
  fear_and_greed : Option FearGreedRaw
  historical : Option (List HistPoint)
  indicators : List (String × IndicatorRaw)
deriving DecidableEq

/-- Python `data.get(key)` over the sub-indicator entries. -/
def lookupKey (inds : List (String × IndicatorRaw)) (k : String) : Option IndicatorRaw :=
  (inds.find? fun e => e.1 == k).map Prod.snd

/-- current_score (source line 172): `fg.get("score", 0)`. -/
def current_score (p : Payload) : ℚ :=
  ((p.fear_and_greed.getD FearGreedRaw.empty).score).getD 0

/-- current_rating (source line 173): `fg.get("rating", _rating_label(current_score))`. -/
def current_rating (p : Payload) : String :=
  ((p.fear_and_greed.getD FearGreedRaw.empty).rating).getD (_rating_label (current_score p))

/-- previous_close (source line 174): `fg.get("previous_close", current_score)`. -/
def previous_close (p : Payload) : ℚ :=
  ((p.fear_and_greed.getD FearGreedRaw.empty).previous_close).getD (current_score p)

/-- timestamp_ms (source line 175): `fg.get("timestamp")`. -/
def timestamp_ms (p : Payload) : Option ℕ :=
  (p.fear_and_greed.getD FearGreedRaw.empty).timestamp

/-- The band string shown for the current reading (source lines 178-180). -/
def currentBand (p : Payload) : String :=
  rating_display (current_rating p) (current_score p)

/-- Python round(q, 1) (source line 201), modelled as rounding q*10 to the
nearest integer and dividing by 10.  (Python rounds exact .5 ties to even;
an exact decimal tie is never produced by the binary floats of the source,
so nearest-integer rounding is the faithful model off ties.) -/
def pyRound1 (q : ℚ) : ℚ := (round (q * 10) : ℤ) / 10

/-- delta (source line 201): `round(current_score - previous_close, 1)`. -/
def delta (p : Payload) : ℚ := pyRound1 (current_score p - previous_close p)

/-- The contract pandas documents for `df.sort_values("date")` with its
default kind="quicksort" (source line 100): the result is a permutation of
the rows, ascending in the sort key; sorting by the converted date column
is sorting by x, since the ms-to-datetime conversion is strictly monotone.
Quicksort is documented as not stable, so the relative order of rows with
tied keys is NOT specified: the sort is modelled as an arbitrary function
satisfying this contract, never as a fixed (in particular never a stable)
algorithm. -/
def pandasSortSpec (sortv : List HistPoint → List HistPoint) : Prop :=
  ∀ hist : List HistPoint,
    (sortv hist).Perm hist ∧ (sortv hist).Pairwise (fun a b => a.x ≤ b.x)

/-- One concrete function satisfying pandasSortSpec that is not stable: a
lexicographic order by time ascending and, within tied times, score
descending.  It witnesses behaviour the unstable pandas quicksort is
permitted to have on tied timestamps. -/
def tieAdverseLe (a b : HistPoint) : Bool :=
  decide (a.x < b.x) || (decide (a.x = b.x) && decide (b.y ≤ a.y))

/-- The sort induced by tieAdverseLe: admissible for sort_values, but it
reorders tied-timestamp rows of an already time-sorted input. -/
def tieAdverseSort (hist : List HistPoint) : List HistPoint :=
  hist.mergeSort tieAdverseLe

/-- build_history_chart (source lines 91-100), reduced to the data it
plots: `data.get("fear_and_greed_historical", {}).get("data")` is None when
the key chain is absent; `if not hist` returns None for a missing or empty
array; otherwise the points are sorted ascending by date.  The sort is the
numpy quicksort behind `df.sort_values("date")` — library code whose exact
tie behaviour is unspecified — so the model is parametric in the sort
implementation `sortv`, constrained by pandasSortSpec where a claim needs
the sorted-permutation guarantee. -/
def build_history_chart (sortv : List HistPoint → List HistPoint)
    (p : Payload) : Option (List HistPoint) :=
  match p.historical with
  | none => none
  | some hist => if hist.isEmpty then none else some (sortv hist)

/-- INDICATOR_KEYS (source lines 147-155): the seven (JSON key, display
label) pairs in declared order. -/
def INDICATOR_KEYS : List (String × String) :=
  [("market_momentum_sp500", "Market Momentum"),
   ("stock_price_strength", "Stock Price Strength"),
   ("stock_price_breadth", "Stock Price Breadth"),
   ("put_call_options", "Put and Call Options"),
   ("market_volatility_vix", "Market Volatility"),
   ("safe_haven_demand", "Safe Haven Demand"),
   ("junk_bond_demand", "Junk Bond Demand")]

/-- One rendered indicator card (source lines 250-264). -/
structure IndicatorCard where
  key : String
  label : String
  score : ℚ
  rating : String
  color : String
deriving DecidableEq

/-- RATING_COLORS.get(r, "#666") (source lines 181 and 248). -/
def ratingColor (r : String) : String :=
  ((RATING_COLORS.find? fun e => e.1 == r).map Prod.snd).getD "#666"

/-- One iteration of the indicator loop (source lines 235-248): an absent
key gives the falsy empty dict and is skipped (`continue`); a present entry
whose score is absent is skipped; otherwise the rating is normalised by the
same three lines as 178-180 (here factored through rating_display) with
default rating "" (line 241). -/
def buildIndicator (k l : String) (inds : List (String × IndicatorRaw)) :
    Option IndicatorCard :=
  match lookupKey inds k with
  | none => none
  | some ind =>
    match ind.score with
    | none => none
    | some s =>
      let ind_rating := rating_display (ind.rating.getD "") s
      some ⟨k, l, s, ind_rating, ratingColor ind_rating⟩

/-- The cards produced by the indicator loop (source lines 235-265), in
declared order, skipped indicators omitted with no placeholder. -/
def indicatorCards (p : Payload) : List IndicatorCard :=
  INDICATOR_KEYS.filterMap fun kl => buildIndicator kl.1 kl.2 p.indicators

/-- The outcome of the single `requests.get` call (source line 59) together
with the parse of the response body: either the transport raised, or a
response arrived with an HTTP status and a body whose JSON parse either
fails or yields a payload. -/
inductive NetOutcome where
  | transportError (msg : String)
  | response (status : ℕ) (body : Except String Payload)

/-- fetch_fear_greed_data without its cache decorator (source lines 48-64):
one GET, `raise_for_status` raises on status >= 400, `resp.json()` may
raise a parse error; every exception is caught by the single `except`,
reported by one st.error message, and turned into the return value None.
Returns the result together with the error messages emitted. -/
def fetchOnce (net : NetOutcome) : Option Payload × List String :=
  match net with
  | .transportError msg => (none, ["Failed to fetch data from CNN: " ++ msg])
  | .response status body =>
    if 400 ≤ status then
      (none, ["Failed to fetch data from CNN: HTTP " ++ toString status])
    else
      match body with
      | .error e => (none, ["Failed to fetch data from CNN: " ++ e])
      | .ok p => (some p, [])

/-- The cache TTL of the st.cache_data decorator (source line 47). -/
def CACHE_TTL : ℕ := 300

/-- The single no-argument cache slot: absent, or the time (seconds) at
which it was populated together with the memoised return value (which is
whatever the function returned, None included). -/
structure CacheState where
  entry : Option (ℕ × Option Payload)
deriving DecidableEq

/-- The cache before any call. -/
def initialCache : CacheState := ⟨none⟩

/-- The observable effect of one cached call: its return value, the cache
afterwards, how many network requests were issued, and the error messages
emitted. -/
structure FetchStep where
  result : Option Payload
  state : CacheState
  networkCalls : ℕ
  messages : List String
deriving DecidableEq

/-- Modelled from the spec: the memoisation applied by the
`st.cache_data(ttl=300)` decorator at source line 47, whose implementation
is Streamlit library code not under src/.  Per the spec's caching policy,
the result is memoised in a single no-argument cache slot; within the
300-second TTL the cached value is returned with no network call; after
expiry the function body runs again (exactly one GET, no retry) and its
result replaces the cached value, stale or not. -/
def cachedFetch (now : ℕ) (net : NetOutcome) (s : CacheState) : FetchStep :=
  match s.entry with
  | some (t, v) =>
    if now < t + CACHE_TTL then ⟨v, s, 0, []⟩
    else
      let r := fetchOnce net
      ⟨r.1, ⟨some (now, r.1)⟩, 1, r.2⟩
  | none =>
    let r := fetchOnce net
    ⟨r.1, ⟨some (now, r.1)⟩, 1, r.2⟩

/-- The widgets the page can render, in document order.  Chart, gauge and
card internals are plotting-library details; each widget carries the data
the source feeds it.  The last-updated caption (source lines 203-204)
carries the raw timestamp; its strftime formatting is presentation detail
not modelled. -/
inductive Widget where
  | titleW (s : String)
  | captionW (s : String)
  | errorW (s : String)
  | warningW (s : String)
  | gaugeW (score : ℚ)
  | sentimentW (band : String) (color : String)
  | metricW (score : ℚ) (delta : ℚ)
  | lastUpdatedW (t : ℕ)
  | bandTableW
  | dividerW
  | chartW (pts : List HistPoint)
  | infoW (s : String)
  | subheaderW (s : String)
  | cardW (c : IndicatorCard)
deriving DecidableEq

/-- The widgets rendered after a successful fetch (source lines 170-265):
gauge, sentiment headline, metric with delta, the last-updated caption only
when the timestamp is truthy (line 184: Python treats None and 0 as
falsy), the reference table, the history chart or its empty-state info
message (lines 220-224), and the indicator cards (lines 235-265).
Parametric in the sort implementation `sortv` used by the history chart. -/
def renderBody (sortv : List HistPoint → List HistPoint) (p : Payload) : List Widget :=
  [Widget.gaugeW (current_score p),
   Widget.sentimentW (currentBand p) (ratingColor (currentBand p)),
   Widget.metricW (current_score p) (delta p)]
  ++ (match timestamp_ms p with
      | some t => if t ≠ 0 then [Widget.lastUpdatedW t] else []
      | none => [])
  ++ [Widget.bandTableW, Widget.dividerW]
  ++ (match build_history_chart sortv p with
      | some pts => [Widget.chartW pts]
      | none => [Widget.infoW "Historical data is not available right now."])
  ++ [Widget.dividerW, Widget.subheaderW "Component Indicators"]
  ++ (indicatorCards p).map Widget.cardW
  ++ [Widget.dividerW, Widget.captionW "footer attribution"]

/-- One first-run render cycle of the page (source lines 161-265, cache
cold): title and caption, then the fetch (whose st.error messages appear at
this point in the page), then either the warning followed by st.stop
(lines 166-168: nothing after it renders) or the dashboard body.
Parametric in the sort implementation `sortv` like renderBody. -/
def runPage (sortv : List HistPoint → List HistPoint) (net : NetOutcome) : List Widget :=
  let r := fetchOnce net
  [Widget.titleW "CNN Fear and Greed Index Dashboard",
   Widget.captionW "Real-time market sentiment powered by CNN"]
  ++ r.2.map Widget.errorW
  ++ (match r.1 with
      | none => [Widget.warningW "Unable to load Fear and Greed data. Please try again later."]
      | some p => renderBody sortv p)

/-- True exactly for the user-visible failure message boxes. -/
def isMessageBox : Widget → Bool
  | .errorW _ => true
  | .warningW _ => true
  | _ => false


/-- A concrete payload carrying six of the seven indicators, with
junk_bond_demand absent (used by the indicator-loop claims). -/
def payloadSixIndicators : Payload :=
  ⟨some ⟨some 50, none, none, none⟩, none,
   [("market_momentum_sp500", ⟨some 10, some "extreme_fear"⟩),
    ("stock_price_strength", ⟨some 20, none⟩),
    ("stock_price_breadth", ⟨some 30, some "fear"⟩),
    ("put_call_options", ⟨some 50, none⟩),
    ("market_volatility_vix", ⟨some 60, some "greed"⟩),
    ("safe_haven_demand", ⟨some 90, none⟩)]⟩

/-! Helper lemmas shared by the claim theorems. -/

/-- The classifier always lands in the five canonical band names. -/
theorem rl_mem_bandKeys (s : ℚ) : _rating_label s ∈ bandKeys := by
  unfold _rating_label
  split_ifs <;> decide

/-- The classifier output is a fixed point of the label normalisation. -/
theorem normalizeLabel_rl (s : ℚ) : normalizeLabel (_rating_label s) = _rating_label s := by
  unfold _rating_label
  split_ifs <;> decide

/-- Normalisation fixes each canonical band name. -/
theorem normalizeLabel_band : ∀ b ∈ bandKeys, normalizeLabel b = b := by decide

/-- rating_display keeps a label whose normalisation is canonical. -/
theorem rating_display_of_mem (label : String) (score : ℚ)
    (h : normalizeLabel label ∈ bandKeys) :
    rating_display label score = normalizeLabel label := by
  unfold rating_display
  simp [h]

/-- rating_display falls back to the classifier otherwise. -/
theorem rating_display_of_not_mem (label : String) (score : ℚ)
    (h : normalizeLabel label ∉ bandKeys) :
    rating_display label score = _rating_label score := by
  unfold rating_display
  simp [h]

/-- Characterisation of the ExtremeFear band. -/
theorem rl_ef_iff (s : ℚ) : _rating_label s = "Extreme Fear" ↔ s ≤ 25 := by
  unfold _rating_label
  split_ifs <;> simp_all

/-- Characterisation of the Fear band. -/
theorem rl_f_iff (s : ℚ) : _rating_label s = "Fear" ↔ 25 < s ∧ s ≤ 45 := by
  unfold _rating_label
  split_ifs <;> simp_all

/-- Characterisation of the Neutral band. -/
theorem rl_n_iff (s : ℚ) : _rating_label s = "Neutral" ↔ 45 < s ∧ s ≤ 55 := by
  unfold _rating_label
  split_ifs <;> simp_all <;> intro h <;> linarith

/-- Characterisation of the Greed band. -/
theorem rl_g_iff (s : ℚ) : _rating_label s = "Greed" ↔ 55 < s ∧ s ≤ 75 := by
  unfold _rating_label
  split_ifs <;> simp_all <;> intro h <;> linarith

/-- Characterisation of the ExtremeGreed band. -/
theorem rl_eg_iff (s : ℚ) : _rating_label s = "Extreme Greed" ↔ 75 < s := by
  unfold _rating_label
  split_ifs <;> simp_all <;> linarith

/-- C1: the classifier is total and deterministic (it is a function), always
returns one of the five canonical bands, and the bands partition the
rationals at 25, 45, 55, 75 with boundaries inclusive on the lower band;
out-of-range scores classify via the outermost bands. -/
theorem C1_classifier_partition (s : ℚ) :
    _rating_label s ∈ bandKeys ∧
    (_rating_label s = "Extreme Fear" ↔ s ≤ 25) ∧
    (_rating_label s = "Fear" ↔ 25 < s ∧ s ≤ 45) ∧
    (_rating_label s = "Neutral" ↔ 45 < s ∧ s ≤ 55) ∧
    (_rating_label s = "Greed" ↔ 55 < s ∧ s ≤ 75) ∧
    (_rating_label s = "Extreme Greed" ↔ 75 < s) ∧
    _rating_label 25 = "Extreme Fear" ∧
    _rating_label (2501 / 100) = "Fear" ∧
    _rating_label 75 = "Greed" ∧
    _rating_label (7501 / 100) = "Extreme Greed" ∧
    _rating_label (-5) = "Extreme Fear" ∧
    _rating_label 200 = "Extreme Greed" :=
  ⟨rl_mem_bandKeys s, rl_ef_iff s, rl_f_iff s, rl_n_iff s, rl_g_iff s, rl_eg_iff s,
   (rl_ef_iff 25).mpr (by norm_num),
   (rl_f_iff _).mpr (by norm_num),
   (rl_g_iff 75).mpr (by norm_num),
   (rl_eg_iff _).mpr (by norm_num),
   (rl_ef_iff _).mpr (by norm_num),
   (rl_eg_iff 200).mpr (by norm_num)⟩

/-- Claim C1 witness: the partition applied at the concrete score 30. -/
theorem C1_witness : _rating_label 30 = "Fear" :=
  (C1_classifier_partition 30).2.2.1.mpr (by norm_num)

/-- C2: the display band for an external label is the normalised label
(underscores to spaces, then title case) when canonical, else the
classifier of the score; normalisation fixes canonical names and maps
"extreme_fear" to "Extreme Fear". -/
theorem C2_label_normalization (label : String) (score : ℚ) :
    rating_display label score =
      (if normalizeLabel label ∈ bandKeys then normalizeLabel label
       else _rating_label score) ∧
    (normalizeLabel label ∈ bandKeys →
      rating_display label score = normalizeLabel label) ∧
    (normalizeLabel label ∉ bandKeys →
      rating_display label score = _rating_label score) ∧
    (∀ b ∈ bandKeys, normalizeLabel b = b ∧ rating_display b score = b) ∧
    normalizeLabel "extreme_fear" = "Extreme Fear" ∧
    rating_display "extreme_fear" score = "Extreme Fear" := by
  refine ⟨rfl, rating_display_of_mem label score, rating_display_of_not_mem label score,
    ?_, by decide, ?_⟩
  · intro b hb
    have hfix := normalizeLabel_band b hb
    refine ⟨hfix, ?_⟩
    rw [rating_display_of_mem b score (by rw [hfix]; exact hb), hfix]
  · rw [rating_display_of_mem "extreme_fear" score (by decide)]
    decide

/-- C2 witness: concrete instances with the hypotheses discharged. -/
theorem C2_witness :
    rating_display "extreme_fear" 10 = "Extreme Fear" ∧
    rating_display "bogus" 80 = _rating_label 80 ∧
    rating_display "Neutral" 80 = "Neutral" :=
  ⟨(C2_label_normalization "extreme_fear" 10).2.2.2.2.2,
   (C2_label_normalization "bogus" 80).2.2.1 (by decide),
   ((C2_label_normalization "Neutral" 80).2.2.2.1 "Neutral" (by decide)).2⟩

/-- C3 counterexample: a payload whose score is 80 but whose external
rating is "fear" displays the band "Fear", while the classifier output for
its score is "Extreme Greed" — a valid external label is trusted over
classify(score). -/
theorem C3_counterexample :
    currentBand ⟨some ⟨some 80, some "fear", none, none⟩, none, []⟩ = "Fear" ∧
    _rating_label
      (current_score ⟨some ⟨some 80, some "fear", none, none⟩, none, []⟩) =
      "Extreme Greed" ∧
    ("Fear" : String) ≠ "Extreme Greed" := by
  refine ⟨by decide, ?_, by decide⟩
  have : current_score ⟨some ⟨some 80, some "fear", none, none⟩, none, []⟩ = 80 := by decide
  rw [this]
  unfold _rating_label
  norm_num

/-- C3 amended: the displayed band equals the classifier output for the
score whenever the external rating is absent or does not normalise to a
canonical band name; a rating that normalises to a canonical band name is
displayed as that name (even when it differs from the classifier). -/
theorem C3_band_amended (p : Payload) (fg : FearGreedRaw)
    (hfg : p.fear_and_greed = some fg) :
    (fg.rating = none → currentBand p = _rating_label (current_score p)) ∧
    (∀ lab, fg.rating = some lab → normalizeLabel lab ∉ bandKeys →
      currentBand p = _rating_label (current_score p)) ∧
    (∀ lab, fg.rating = some lab → normalizeLabel lab ∈ bandKeys →
      currentBand p = normalizeLabel lab) := by
  refine ⟨?_, ?_, ?_⟩
  · intro hr
    unfold currentBand current_rating
    rw [hfg]
    simp only [Option.getD_some, hr, Option.getD_none]
    rw [rating_display_of_mem _ _ (by rw [normalizeLabel_rl]; exact rl_mem_bandKeys _)]
    exact normalizeLabel_rl _
  · intro lab hr hmem
    unfold currentBand current_rating
    rw [hfg]
    simp only [Option.getD_some, hr]
    exact rating_display_of_not_mem _ _ hmem
  · intro lab hr hmem
    unfold currentBand current_rating
    rw [hfg]
    simp only [Option.getD_some, hr]
    exact rating_display_of_mem _ _ hmem

/-- C3 amended witness: with no external rating, a score of 30 displays the
classifier band. -/
theorem C3_amended_witness :
    currentBand ⟨some ⟨some 30, none, none, none⟩, none, []⟩ =
      _rating_label (current_score ⟨some ⟨some 30, none, none, none⟩, none, []⟩) :=
  (C3_band_amended ⟨some ⟨some 30, none, none, none⟩, none, []⟩
    ⟨some 30, none, none, none⟩ rfl).1 rfl

/-- Extracting the fields of a card produced by one loop iteration. -/
theorem buildIndicator_eq_some (k l : String) (inds : List (String × IndicatorRaw))
    (c : IndicatorCard) (h : buildIndicator k l inds = some c) :
    c.key = k ∧ c.label = l ∧
    ∃ ind, lookupKey inds k = some ind ∧ ind.score = some c.score ∧
      c.rating = rating_display (ind.rating.getD "") c.score := by
  unfold buildIndicator at h
  split at h
  · exact absurd h (by simp)
  next ind hk =>
    split at h
    · exact absurd h (by simp)
    next s hs =>
      simp only [Option.some.injEq] at h
      subst h
      exact ⟨rfl, rfl, ind, hk, hs, rfl⟩

/-- A present key with a present score yields its card. -/
theorem buildIndicator_of_present (k l : String) (inds : List (String × IndicatorRaw))
    (ind : IndicatorRaw) (s : ℚ) (hk : lookupKey inds k = some ind)
    (hs : ind.score = some s) :
    buildIndicator k l inds =
      some ⟨k, l, s, rating_display (ind.rating.getD "") s,
        ratingColor (rating_display (ind.rating.getD "") s)⟩ := by
  simp [buildIndicator, hk, hs]

/-- Mapping a filterMap is a sublist of the mapped source whenever the
mapping agrees with the filter. -/
theorem filterMap_map_sublist {α β γ : Type _} (f : α → Option β) (g : β → γ) (h : α → γ)
    (hfg : ∀ a b, f a = some b → g b = h a) :
    ∀ l : List α, (((l.filterMap f).map g)).Sublist (l.map h)
  | [] => by simp
  | x :: xs => by
    cases hx : f x with
    | none =>
      simp only [List.filterMap_cons, hx, List.map_cons]
      exact (filterMap_map_sublist f g h hfg xs).cons _
    | some b =>
      simp only [List.filterMap_cons, hx, List.map_cons, hfg x b hx]
      exact (filterMap_map_sublist f g h hfg xs).cons₂ _

/-- The emitted cards keep the declared key order. -/
theorem indicatorCards_keys_sublist (p : Payload) :
    (((indicatorCards p).map fun c => (c.key, c.label))).Sublist INDICATOR_KEYS := by
  have h := filterMap_map_sublist
    (fun kl : String × String => buildIndicator kl.1 kl.2 p.indicators)
    (fun c => (c.key, c.label)) id ?_ INDICATOR_KEYS
  · simpa using h
  · intro a b hb
    obtain ⟨hk, hl, -⟩ := buildIndicator_eq_some a.1 a.2 p.indicators b hb
    simp [hk, hl]

/-- Every emitted card comes from a present entry with a present score. -/
theorem mem_indicatorCards (p : Payload) (c : IndicatorCard) (hc : c ∈ indicatorCards p) :
    ∃ ind, lookupKey p.indicators c.key = some ind ∧ ind.score = some c.score := by
  unfold indicatorCards at hc
  rw [List.mem_filterMap] at hc
  obtain ⟨kl, -, hb⟩ := hc
  obtain ⟨hk, -, ind, hi, hs, -⟩ := buildIndicator_eq_some kl.1 kl.2 p.indicators c hb
  exact ⟨ind, by rw [hk]; exact hi, hs⟩

/-- Every declared key present with a score is emitted. -/
theorem indicatorCards_complete (p : Payload) (kl : String × String)
    (hkl : kl ∈ INDICATOR_KEYS) (ind : IndicatorRaw) (s : ℚ)
    (hk : lookupKey p.indicators kl.1 = some ind) (hs : ind.score = some s) :
    ∃ c ∈ indicatorCards p, c.key = kl.1 ∧ c.label = kl.2 ∧ c.score = s := by
  refine ⟨⟨kl.1, kl.2, s, rating_display (ind.rating.getD "") s,
    ratingColor (rating_display (ind.rating.getD "") s)⟩, ?_, rfl, rfl, rfl⟩
  unfold indicatorCards
  rw [List.mem_filterMap]
  exact ⟨kl, hkl, buildIndicator_of_present kl.1 kl.2 p.indicators ind s hk hs⟩

/-- tieAdverseLe is transitive. -/
theorem tieAdverseLe_trans (a b c : HistPoint) :
    tieAdverseLe a b → tieAdverseLe b c → tieAdverseLe a c := by
  simp only [tieAdverseLe, Bool.or_eq_true, Bool.and_eq_true, decide_eq_true_eq]
  intro h1 h2
  rcases h1 with h1 | ⟨h1x, h1y⟩ <;> rcases h2 with h2 | ⟨h2x, h2y⟩
  · exact Or.inl (h1.trans h2)
  · exact Or.inl (h2x ▸ h1)
  · exact Or.inl (h1x ▸ h2)
  · exact Or.inr ⟨h1x.trans h2x, h2y.trans h1y⟩

/-- tieAdverseLe is total. -/
theorem tieAdverseLe_total (a b : HistPoint) :
    tieAdverseLe a b || tieAdverseLe b a := by
  unfold tieAdverseLe
  rcases Nat.lt_trichotomy a.x b.x with h | h | h
  · simp [h]
  · simp [h]
    exact le_total b.y a.y
  · simp [h]

/-- tieAdverseSort satisfies the documented sort_values contract. -/
theorem tieAdverseSort_spec : pandasSortSpec tieAdverseSort := by
  intro hist
  refine ⟨List.mergeSort_perm hist tieAdverseLe, ?_⟩
  have h := @List.sorted_mergeSort HistPoint tieAdverseLe
    (fun a b c => tieAdverseLe_trans a b c) (fun a b => tieAdverseLe_total a b) hist
  refine h.imp ?_
  intro a b hab
  simp only [tieAdverseLe, Bool.or_eq_true, Bool.and_eq_true, decide_eq_true_eq] at hab
  rcases hab with hab | ⟨hab, -⟩
  · exact Nat.le_of_lt hab
  · exact Nat.le_of_eq hab

/-- With a present non-empty history the chart plots the sort output. -/
theorem build_history_chart_eq (sortv : List HistPoint → List HistPoint)
    (p : Payload) (hist : List HistPoint)
    (hp : p.historical = some hist) (hne : hist ≠ []) :
    build_history_chart sortv p = some (sortv hist) := by
  unfold build_history_chart
  rw [hp]
  simp [hne]

/-- A time-sorted permutation of a strictly time-sorted list is that list:
with no tied timestamps the sorted order is unique, whatever the sort. -/
theorem sorted_perm_of_strict (hist pts : List HistPoint)
    (hperm : pts.Perm hist) (hstrict : hist.Pairwise (fun a b => a.x < b.x))
    (hsorted : pts.Pairwise (fun a b => a.x ≤ b.x)) : pts = hist := by
  have hne : hist.Pairwise (fun a b => a.x ≠ b.x) :=
    hstrict.imp fun h => Nat.ne_of_lt h
  have hne2 : pts.Pairwise (fun a b => a.x ≠ b.x) :=
    (hperm.pairwise_iff fun h => Ne.symm h).mpr hne
  have hstrict2 : pts.Pairwise (fun a b => a.x < b.x) :=
    (hsorted.and hne2).imp fun h => lt_of_le_of_ne h.1 h.2
  haveI : IsAntisymm HistPoint (fun a b => a.x < b.x) :=
    ⟨fun a b h1 h2 => absurd (h1.trans h2) (lt_irrefl _)⟩
  exact List.eq_of_perm_of_sorted hperm hstrict2 hstrict

/-- A payload whose previous_close is absent falls back to the score. -/
theorem previous_close_none (p : Payload) (fg : FearGreedRaw)
    (h : p.fear_and_greed = some fg) (hpc : fg.previous_close = none) :
    previous_close p = current_score p := by
  unfold previous_close
  rw [h]
  simp [hpc]

/-- A present previous_close is used as is. -/
theorem previous_close_some (p : Payload) (fg : FearGreedRaw)
    (h : p.fear_and_greed = some fg) (q : ℚ) (hpc : fg.previous_close = some q) :
    previous_close p = q := by
  unfold previous_close
  rw [h]
  simp [hpc]

/-- Rounding zero to one decimal gives zero. -/
theorem pyRound1_zero : pyRound1 0 = 0 := by
  unfold pyRound1
  norm_num

/-- Rounding is exact on values with one decimal digit. -/
theorem pyRound1_exact (n : ℤ) : pyRound1 ((n : ℚ) / 10) = (n : ℚ) / 10 := by
  unfold pyRound1
  rw [div_mul_cancel₀]
  · rw [round_intCast]
  · norm_num

/-- The first cached call runs the body once and populates the slot. -/
theorem cache_first_call (t0 : ℕ) (net : NetOutcome) :
    cachedFetch t0 net initialCache =
      ⟨(fetchOnce net).1, ⟨some (t0, (fetchOnce net).1)⟩, 1, (fetchOnce net).2⟩ := by
  unfold cachedFetch initialCache
  rfl

/-- A call inside the TTL window returns the memoised value, no network. -/
theorem cache_hit (t now : ℕ) (v : Option Payload) (net : NetOutcome)
    (h : now < t + CACHE_TTL) :
    cachedFetch now net ⟨some (t, v)⟩ = ⟨v, ⟨some (t, v)⟩, 0, []⟩ := by
  unfold cachedFetch
  simp [h]

/-- A call after expiry reruns the body and replaces the slot. -/
theorem cache_expired (t now : ℕ) (v : Option Payload) (net : NetOutcome)
    (h : t + CACHE_TTL ≤ now) :
    cachedFetch now net ⟨some (t, v)⟩ =
      ⟨(fetchOnce net).1, ⟨some (now, (fetchOnce net).1)⟩, 1, (fetchOnce net).2⟩ := by
  unfold cachedFetch
  simp [Nat.not_lt.mpr h]

/-- An absent or empty historical array yields no chart. -/
theorem build_history_chart_none (sortv : List HistPoint → List HistPoint)
    (p : Payload) (h : p.historical = none ∨ p.historical = some []) :
    build_history_chart sortv p = none := by
  unfold build_history_chart
  rcases h with h | h <;> rw [h] <;> simp

/-- Card widgets on the page are exactly the emitted indicator cards. -/
theorem mem_renderBody_cardW (sortv : List HistPoint → List HistPoint)
    (p : Payload) (c : IndicatorCard) :
    Widget.cardW c ∈ renderBody sortv p ↔ c ∈ indicatorCards p := by
  unfold renderBody
  cases timestamp_ms p with
  | none => cases build_history_chart sortv p <;> simp
  | some t => cases build_history_chart sortv p <;> by_cases ht : t = 0 <;> simp [ht]

/-- A chart widget appears exactly when build_history_chart yields it. -/
theorem mem_renderBody_chartW (sortv : List HistPoint → List HistPoint)
    (p : Payload) (pts : List HistPoint) :
    Widget.chartW pts ∈ renderBody sortv p ↔ build_history_chart sortv p = some pts := by
  unfold renderBody
  cases timestamp_ms p with
  | none => cases h : build_history_chart sortv p <;> simp [eq_comm]
  | some t =>
    cases h : build_history_chart sortv p <;> by_cases ht : t = 0 <;> simp [ht, eq_comm]

/-- With no chart the empty-state message renders. -/
theorem mem_renderBody_infoW (sortv : List HistPoint → List HistPoint)
    (p : Payload) (h : build_history_chart sortv p = none) :
    Widget.infoW "Historical data is not available right now." ∈ renderBody sortv p := by
  unfold renderBody
  rw [h]
  cases timestamp_ms p with
  | none => simp
  | some t => by_cases ht : t = 0 <;> simp [ht]

/-- With no timestamp the last-updated caption never renders. -/
theorem mem_renderBody_lastUpdatedW (sortv : List HistPoint → List HistPoint)
    (p : Payload) (hts : timestamp_ms p = none)
    (t : ℕ) : Widget.lastUpdatedW t ∉ renderBody sortv p := by
  unfold renderBody
  rw [hts]
  cases build_history_chart sortv p <;> simp

/-- The gauge always renders with the current score. -/
theorem mem_renderBody_gaugeW (sortv : List HistPoint → List HistPoint)
    (p : Payload) :
    Widget.gaugeW (current_score p) ∈ renderBody sortv p := by
  unfold renderBody
  simp

/-- The score metric with its delta always renders. -/
theorem mem_renderBody_metricW (sortv : List HistPoint → List HistPoint)
    (p : Payload) :
    Widget.metricW (current_score p) (delta p) ∈ renderBody sortv p := by
  unfold renderBody
  simp

/-- The sentiment headline always renders. -/
theorem mem_renderBody_sentimentW (sortv : List HistPoint → List HistPoint)
    (p : Payload) :
    Widget.sentimentW (currentBand p) (ratingColor (currentBand p)) ∈ renderBody sortv p := by
  unfold renderBody
  simp

/-- With no external rating the band is the classifier output. -/
theorem currentBand_rating_none (p : Payload) (fg : FearGreedRaw)
    (h : p.fear_and_greed = some fg) (hr : fg.rating = none) :
    currentBand p = _rating_label (current_score p) := by
  unfold currentBand current_rating
  rw [h]
  simp only [Option.getD_some, hr, Option.getD_none]
  rw [rating_display_of_mem _ _ (by rw [normalizeLabel_rl]; exact rl_mem_bandKeys _)]
  exact normalizeLabel_rl _

/-- With an unrecognised external rating the band is the classifier output. -/
theorem currentBand_rating_invalid (p : Payload) (fg : FearGreedRaw)
    (h : p.fear_and_greed = some fg) (lab : String) (hr : fg.rating = some lab)
    (hm : normalizeLabel lab ∉ bandKeys) :
    currentBand p = _rating_label (current_score p) := by
  unfold currentBand current_rating
  rw [h]
  simp only [Option.getD_some, hr]
  exact rating_display_of_not_mem _ _ hm

/-- With a recognised external rating the band is the normalised label. -/
theorem currentBand_rating_valid (p : Payload) (fg : FearGreedRaw)
    (h : p.fear_and_greed = some fg) (lab : String) (hr : fg.rating = some lab)
    (hm : normalizeLabel lab ∈ bandKeys) :
    currentBand p = normalizeLabel lab := by
  unfold currentBand current_rating
  rw [h]
  simp only [Option.getD_some, hr]
  exact rating_display_of_mem _ _ hm

/-- A card never renders for a key that is absent from the payload. -/
theorem renderBody_card_absent (sortv : List HistPoint → List HistPoint)
    (p : Payload) (k : String)
    (hk : lookupKey p.indicators k = none) (c : IndicatorCard)
    (hc : Widget.cardW c ∈ renderBody sortv p) : c.key ≠ k := by
  rw [mem_renderBody_cardW] at hc
  obtain ⟨ind, hi, -⟩ := mem_indicatorCards p c hc
  intro he
  rw [he, hk] at hi
  exact absurd hi (by simp)

/-- A failed fetch emits exactly one error message. -/
theorem fetchOnce_fail_msg (net : NetOutcome) (h : (fetchOnce net).1 = none) :
    ∃ m, (fetchOnce net).2 = [m] := by
  cases net with
  | transportError msg => exact ⟨_, rfl⟩
  | response status body =>
    simp only [fetchOnce] at h ⊢
    split_ifs at h ⊢ with hs
    · exact ⟨_, rfl⟩
    · cases body with
      | error e => exact ⟨_, rfl⟩
      | ok p => exact absurd h (by simp)

/-- On a failed fetch the page is header, error messages, warning, stop. -/
theorem runPage_failure (sortv : List HistPoint → List HistPoint)
    (net : NetOutcome) (h : (fetchOnce net).1 = none) :
    runPage sortv net =
      [Widget.titleW "CNN Fear and Greed Index Dashboard",
       Widget.captionW "Real-time market sentiment powered by CNN"]
      ++ (fetchOnce net).2.map Widget.errorW
      ++ [Widget.warningW "Unable to load Fear and Greed data. Please try again later."] := by
  simp [runPage, h]

/-- Claim C4: the fetch result is memoised in a single no-argument cache
slot with a 300-second TTL: the first call performs one network request and
populates the slot; a second call within the TTL returns the identical
cached data with zero further network requests and leaves the slot
unchanged; a call after expiry performs one new network request, returns
that fresh result (never the stale cached value, even when the new fetch
fails), and replaces the slot. -/
theorem C4_cache_ttl (t0 t1 t2 : ℕ) (net0 net1 net2 : NetOutcome)
    (h1 : t1 < t0 + CACHE_TTL) (h2 : t0 + CACHE_TTL ≤ t2) :
    (cachedFetch t0 net0 initialCache).networkCalls = 1 ∧
    (cachedFetch t0 net0 initialCache).result = (fetchOnce net0).1 ∧
    (cachedFetch t1 net1 (cachedFetch t0 net0 initialCache).state).result =
      (cachedFetch t0 net0 initialCache).result ∧
    (cachedFetch t1 net1 (cachedFetch t0 net0 initialCache).state).networkCalls = 0 ∧
    (cachedFetch t1 net1 (cachedFetch t0 net0 initialCache).state).state =
      (cachedFetch t0 net0 initialCache).state ∧
    (cachedFetch t2 net2 (cachedFetch t0 net0 initialCache).state).networkCalls = 1 ∧
    (cachedFetch t2 net2 (cachedFetch t0 net0 initialCache).state).result =
      (fetchOnce net2).1 ∧
    (cachedFetch t2 net2 (cachedFetch t0 net0 initialCache).state).state.entry =
      some (t2, (fetchOnce net2).1) := by
  rw [cache_first_call]
  refine ⟨rfl, rfl, ?_, ?_, ?_, ?_, ?_, ?_⟩ <;>
    simp only [cache_hit _ _ _ _ h1, cache_expired _ _ _ _ h2]

/-- Claim C4 witness: a successful fetch at time 0, a cache hit at 299
returning the same snapshot with no network call, and at 300 a failing
refetch whose None result is returned instead of the stale snapshot. -/
theorem C4_cache_ttl_witness :
    (cachedFetch 0 (NetOutcome.response 200 (Except.ok ⟨none, none, []⟩))
      initialCache).networkCalls = 1 ∧
    (cachedFetch 299 (NetOutcome.transportError "later")
      (cachedFetch 0 (NetOutcome.response 200 (Except.ok ⟨none, none, []⟩))
        initialCache).state).networkCalls = 0 ∧
    (cachedFetch 299 (NetOutcome.transportError "later")
      (cachedFetch 0 (NetOutcome.response 200 (Except.ok ⟨none, none, []⟩))
        initialCache).state).result = some ⟨none, none, []⟩ ∧
    (cachedFetch 300 (NetOutcome.transportError "boom")
      (cachedFetch 0 (NetOutcome.response 200 (Except.ok ⟨none, none, []⟩))
        initialCache).state).result = none := by
  have h := C4_cache_ttl 0 299 300
    (NetOutcome.response 200 (Except.ok ⟨none, none, []⟩))
    (NetOutcome.transportError "later")
    (NetOutcome.transportError "boom")
    (by norm_num [CACHE_TTL]) (by norm_num [CACHE_TTL])
  refine ⟨h.1, h.2.2.2.1, ?_, ?_⟩
  · rw [h.2.2.1, h.2.1]
    rfl
  · rw [h.2.2.2.2.2.2.1]
    rfl

/-- Claim C5 counterexample: on a transport failure the page shows two
user-visible failure message boxes, the fetcher's st.error and the page's
st.warning, so the failure is not reported exactly once.  (The sort
implementation is irrelevant on the failure path; tieAdverseSort is the
concrete instance.) -/
theorem C5_counterexample :
    ((runPage tieAdverseSort (NetOutcome.transportError "timed out")).filter
      isMessageBox).length = 2 := by
  decide

/-- Claim C5 amended: on non-success HTTP status, transport failure, or
body parse failure, the fetch returns the error value None with exactly one
error message and throws nothing (it is a total function); the page then
reports the failure with its own warning and halts: the whole page is the
static header, the fetch error message, and the warning, with no gauge,
chart or indicator card rendered. -/
theorem C5_failure_halts_amended (sortv : List HistPoint → List HistPoint)
    (net : NetOutcome) (hfail : (fetchOnce net).1 = none) :
    (∃ m, (fetchOnce net).2 = [m]) ∧
    runPage sortv net =
      [Widget.titleW "CNN Fear and Greed Index Dashboard",
       Widget.captionW "Real-time market sentiment powered by CNN"]
      ++ (fetchOnce net).2.map Widget.errorW
      ++ [Widget.warningW "Unable to load Fear and Greed data. Please try again later."] ∧
    (∀ s, Widget.gaugeW s ∉ runPage sortv net) ∧
    (∀ pts, Widget.chartW pts ∉ runPage sortv net) ∧
    (∀ c, Widget.cardW c ∉ runPage sortv net) := by
  obtain ⟨m, hm⟩ := fetchOnce_fail_msg net hfail
  have hpage := runPage_failure sortv net hfail
  refine ⟨⟨m, hm⟩, hpage, ?_, ?_, ?_⟩ <;> intro a <;> rw [hpage, hm] <;> simp

/-- Claim C5 witness: the complete failure page for an HTTP 500 response. -/
theorem C5_witness :
    runPage tieAdverseSort (NetOutcome.response 500 (Except.error "bad json")) =
      [Widget.titleW "CNN Fear and Greed Index Dashboard",
       Widget.captionW "Real-time market sentiment powered by CNN",
       Widget.errorW "Failed to fetch data from CNN: HTTP 500",
       Widget.warningW "Unable to load Fear and Greed data. Please try again later."] := by
  have h := (C5_failure_halts_amended tieAdverseSort
    (NetOutcome.response 500 (Except.error "bad json")) (by decide)).2.1
  rw [h]
  rfl

/-- Claim C6: indicator cards are produced only for declared keys present
with a non-null score, in the fixed declared order with no placeholder; the
sample payload missing junk_bond_demand yields exactly the six remaining
cards in declared order. -/
theorem C6_indicator_cards (p : Payload) :
    (((indicatorCards p).map fun c => (c.key, c.label))).Sublist INDICATOR_KEYS ∧
    (∀ c ∈ indicatorCards p, ∃ ind, lookupKey p.indicators c.key = some ind ∧
      ind.score = some c.score) ∧
    (∀ kl ∈ INDICATOR_KEYS, ∀ ind s, lookupKey p.indicators kl.1 = some ind →
      ind.score = some s →
      ∃ c ∈ indicatorCards p, c.key = kl.1 ∧ c.label = kl.2 ∧ c.score = s) ∧
    ((indicatorCards payloadSixIndicators).map fun c => c.key) =
      ["market_momentum_sp500", "stock_price_strength", "stock_price_breadth",
       "put_call_options", "market_volatility_vix", "safe_haven_demand"] ∧
    (indicatorCards payloadSixIndicators).length = 6 :=
  ⟨indicatorCards_keys_sublist p,
   fun c hc => mem_indicatorCards p c hc,
   fun kl hkl ind s hk hs => indicatorCards_complete p kl hkl ind s hk hs,
   by decide, by decide⟩

/-- Claim C6 witness: the first indicator of the sample payload is emitted
with its key, label and score. -/
theorem C6_witness :
    ∃ c ∈ indicatorCards payloadSixIndicators, c.key = "market_momentum_sp500" ∧
      c.label = "Market Momentum" ∧ c.score = 10 :=
  (C6_indicator_cards payloadSixIndicators).2.2.1
    ("market_momentum_sp500", "Market Momentum")
    (by decide) ⟨some 10, some "extreme_fear"⟩ 10 (by decide) rfl

/-- Claim C7 counterexample: pandas documents the default quicksort of
sort_values as not stable, so the program guarantees only a time-sorted
permutation; tieAdverseSort is such an admissible behaviour, and on the
already time-sorted history [(1, 2), (1, 3)] with tied timestamps it
returns [(1, 3), (1, 2)], so sorting an already-sorted sequence need not
be a no-op. -/
theorem C7_counterexample :
    pandasSortSpec tieAdverseSort ∧
    ([⟨1, 2⟩, ⟨1, 3⟩] : List HistPoint).Pairwise (fun a b => a.x ≤ b.x) ∧
    build_history_chart tieAdverseSort ⟨none, some [⟨1, 2⟩, ⟨1, 3⟩], []⟩ =
      some [⟨1, 3⟩, ⟨1, 2⟩] ∧
    ([⟨1, 3⟩, ⟨1, 2⟩] : List HistPoint) ≠ [⟨1, 2⟩, ⟨1, 3⟩] := by
  refine ⟨tieAdverseSort_spec, by decide, ?_, by decide⟩
  simp [build_history_chart, tieAdverseSort, List.mergeSort, List.merge, tieAdverseLe]
  norm_num

/-- Claim C7 amended: for every sort implementation satisfying the
documented sort_values contract and every present non-empty historical
array, the chart data is a permutation of the input sorted ascending by
time, whatever the input order; sorting an already-sorted sequence is a
no-op whenever the timestamps are strictly increasing (with tied
timestamps the unstable sort may reorder the tied rows). -/
theorem C7_history_sorted (sortv : List HistPoint → List HistPoint)
    (hsort : pandasSortSpec sortv) (p : Payload) (hist : List HistPoint)
    (hp : p.historical = some hist) (hne : hist ≠ []) :
    ∃ pts, build_history_chart sortv p = some pts ∧
      pts.Pairwise (fun a b => a.x ≤ b.x) ∧ pts.Perm hist ∧
      (hist.Pairwise (fun a b => a.x < b.x) → pts = hist) :=
  ⟨sortv hist, build_history_chart_eq sortv p hist hp hne,
   (hsort hist).2, (hsort hist).1,
   fun hstrict => sorted_perm_of_strict hist (sortv hist) (hsort hist).1 hstrict
     (hsort hist).2⟩

/-- Claim C7 witness: under the admissible tieAdverseSort an unsorted
three-point history is plotted sorted, and a strictly time-sorted history
is left unchanged. -/
theorem C7_witness :
    (∃ pts, build_history_chart tieAdverseSort
        ⟨none, some [⟨3, 1⟩, ⟨1, 2⟩, ⟨2, 3⟩], []⟩ = some pts ∧
      pts.Pairwise (fun a b => a.x ≤ b.x) ∧
      pts.Perm [⟨3, 1⟩, ⟨1, 2⟩, ⟨2, 3⟩] ∧
      (([⟨3, 1⟩, ⟨1, 2⟩, ⟨2, 3⟩] : List HistPoint).Pairwise (fun a b => a.x < b.x) →
        pts = [⟨3, 1⟩, ⟨1, 2⟩, ⟨2, 3⟩])) ∧
    build_history_chart tieAdverseSort ⟨none, some [⟨1, 2⟩, ⟨2, 3⟩], []⟩ =
      some [⟨1, 2⟩, ⟨2, 3⟩] := by
  refine ⟨C7_history_sorted tieAdverseSort tieAdverseSort_spec
    ⟨none, some [⟨3, 1⟩, ⟨1, 2⟩, ⟨2, 3⟩], []⟩
    [⟨3, 1⟩, ⟨1, 2⟩, ⟨2, 3⟩] rfl (by decide), ?_⟩
  obtain ⟨pts, h1, -, -, h4⟩ := C7_history_sorted tieAdverseSort tieAdverseSort_spec
    ⟨none, some [⟨1, 2⟩, ⟨2, 3⟩], []⟩ [⟨1, 2⟩, ⟨2, 3⟩] rfl (by decide)
  rw [h4 (by decide)] at h1
  exact h1

/-- Claim C8: with previous_close absent the built previous close equals
the current score so the delta is zero; with previous_close present the
delta is the rounded difference of score and previous close, exactly the
difference whenever it has at most one decimal digit. -/
theorem C8_previous_close_default (p : Payload) (fg : FearGreedRaw)
    (h : p.fear_and_greed = some fg) :
    (fg.previous_close = none → previous_close p = current_score p ∧ delta p = 0) ∧
    (∀ q, fg.previous_close = some q → previous_close p = q ∧
      delta p = pyRound1 (current_score p - q)) ∧
    (∀ (q : ℚ) (n : ℤ), fg.previous_close = some q →
      current_score p - q = (n : ℚ) / 10 → delta p = current_score p - q) := by
  refine ⟨?_, ?_, ?_⟩
  · intro hpc
    have hp := previous_close_none p fg h hpc
    exact ⟨hp, by unfold delta; rw [hp, sub_self, pyRound1_zero]⟩
  · intro q hpc
    have hp := previous_close_some p fg h q hpc
    exact ⟨hp, by unfold delta; rw [hp]⟩
  · intro q n hpc hn
    have hp := previous_close_some p fg h q hpc
    unfold delta
    rw [hp, hn, pyRound1_exact]

/-- Claim C8 witness: score 72 with previous close 70 gives delta 2; with
previous_close absent the delta is 0. -/
theorem C8_witness :
    previous_close ⟨some ⟨some 72, none, some 70, none⟩, none, []⟩ = 70 ∧
    delta ⟨some ⟨some 72, none, some 70, none⟩, none, []⟩ = 2 ∧
    delta ⟨some ⟨some 72, none, none, none⟩, none, []⟩ = 0 := by
  refine ⟨((C8_previous_close_default ⟨some ⟨some 72, none, some 70, none⟩, none, []⟩
    _ rfl).2.1 70 rfl).1, ?_, ?_⟩
  · have h := (C8_previous_close_default ⟨some ⟨some 72, none, some 70, none⟩, none, []⟩
      _ rfl).2.2 70 20 rfl (by norm_num [current_score])
    rw [h]
    norm_num [current_score]
  · exact ((C8_previous_close_default ⟨some ⟨some 72, none, none, none⟩, none, []⟩
      _ rfl).1 rfl).2

/-- Claim C9: a missing sub-part degrades gracefully with no error (the
renderer is a total function): an absent or empty history renders the
empty-state message and no chart, an absent timestamp hides the
last-updated caption, an absent indicator key renders no card for that key,
while the gauge, metric and sentiment headline always render. -/
theorem C9_missing_data_tolerated (sortv : List HistPoint → List HistPoint)
    (p : Payload) :
    ((p.historical = none ∨ p.historical = some []) →
      Widget.infoW "Historical data is not available right now." ∈ renderBody sortv p ∧
      ∀ pts, Widget.chartW pts ∉ renderBody sortv p) ∧
    (timestamp_ms p = none → ∀ t, Widget.lastUpdatedW t ∉ renderBody sortv p) ∧
    (∀ k, lookupKey p.indicators k = none →
      ∀ c, Widget.cardW c ∈ renderBody sortv p → c.key ≠ k) ∧
    Widget.gaugeW (current_score p) ∈ renderBody sortv p ∧
    Widget.metricW (current_score p) (delta p) ∈ renderBody sortv p ∧
    Widget.sentimentW (currentBand p) (ratingColor (currentBand p)) ∈ renderBody sortv p := by
  refine ⟨?_, mem_renderBody_lastUpdatedW sortv p, ?_, mem_renderBody_gaugeW sortv p,
    mem_renderBody_metricW sortv p, mem_renderBody_sentimentW sortv p⟩
  · intro h
    have hb := build_history_chart_none sortv p h
    refine ⟨mem_renderBody_infoW sortv p hb, fun pts hmem => ?_⟩
    rw [mem_renderBody_chartW, hb] at hmem
    exact absurd hmem (by simp)
  · intro k hk c hc
    exact renderBody_card_absent sortv p k hk c hc

/-- Claim C9 witness: a payload with no history, no timestamp and no
indicators still renders the gauge, with the empty-state message and no
last-updated caption. -/
theorem C9_witness :
    Widget.infoW "Historical data is not available right now." ∈
      renderBody tieAdverseSort ⟨some ⟨some 50, none, none, none⟩, none, []⟩ ∧
    (∀ t, Widget.lastUpdatedW t ∉
      renderBody tieAdverseSort ⟨some ⟨some 50, none, none, none⟩, none, []⟩) ∧
    Widget.gaugeW (current_score ⟨some ⟨some 50, none, none, none⟩, none, []⟩) ∈
      renderBody tieAdverseSort ⟨some ⟨some 50, none, none, none⟩, none, []⟩ :=
  ⟨((C9_missing_data_tolerated tieAdverseSort
      ⟨some ⟨some 50, none, none, none⟩, none, []⟩).1 (Or.inl rfl)).1,
   (C9_missing_data_tolerated tieAdverseSort
      ⟨some ⟨some 50, none, none, none⟩, none, []⟩).2.1 rfl,
   (C9_missing_data_tolerated tieAdverseSort
      ⟨some ⟨some 50, none, none, none⟩, none, []⟩).2.2.2.1⟩

/-- Claim C10: a payload whose fear_and_greed object lacks the score field
renders without failure using 0 as the current score: the gauge shows 0,
an absent previous_close also defaults to 0 giving delta 0, and with no
valid rating label the band classifies as Extreme Fear. -/
theorem C10_missing_score_defaults (sortv : List HistPoint → List HistPoint)
    (p : Payload) (fg : FearGreedRaw)
    (h : p.fear_and_greed = some fg) (hs : fg.score = none) :
    current_score p = 0 ∧
    Widget.gaugeW 0 ∈ renderBody sortv p ∧
    (fg.previous_close = none → previous_close p = 0 ∧ delta p = 0) ∧
    (fg.rating = none → currentBand p = "Extreme Fear") ∧
    (∀ lab, fg.rating = some lab → normalizeLabel lab ∉ bandKeys →
      currentBand p = "Extreme Fear") := by
  have hcs : current_score p = 0 := by unfold current_score; rw [h]; simp [hs]
  refine ⟨hcs, ?_, ?_, ?_, ?_⟩
  · have hg := mem_renderBody_gaugeW sortv p
    rwa [hcs] at hg
  · intro hpc
    have hp := previous_close_none p fg h hpc
    rw [hcs] at hp
    exact ⟨hp, by unfold delta; rw [hp, hcs, sub_self, pyRound1_zero]⟩
  · intro hr
    rw [currentBand_rating_none p fg h hr, hcs]
    decide
  · intro lab hr hm
    rw [currentBand_rating_invalid p fg h lab hr hm, hcs]
    decide

/-- Claim C10 witness: the empty fear_and_greed object scores 0, classifies
Extreme Fear, and has delta 0. -/
theorem C10_witness :
    current_score ⟨some FearGreedRaw.empty, none, []⟩ = 0 ∧
    currentBand ⟨some FearGreedRaw.empty, none, []⟩ = "Extreme Fear" ∧
    delta ⟨some FearGreedRaw.empty, none, []⟩ = 0 :=
  ⟨(C10_missing_score_defaults tieAdverseSort ⟨some FearGreedRaw.empty, none, []⟩
      FearGreedRaw.empty rfl rfl).1,
   (C10_missing_score_defaults tieAdverseSort ⟨some FearGreedRaw.empty, none, []⟩
      FearGreedRaw.empty rfl rfl).2.2.2.1 rfl,
   ((C10_missing_score_defaults tieAdverseSort ⟨some FearGreedRaw.empty, none, []⟩
      FearGreedRaw.empty rfl rfl).2.2.1 rfl).2⟩

end StreamlitApp
